import Mathlib

/-!
Shallow embedding of the rate cache and conversion engine of
`currconv.go` (package main of binsch/currencyconverter).

Modelling conventions:
* Go `float64` values (rates, amounts, converted results) are modelled as
  exact rationals `ℚ`.  Division by zero yields `0` in `ℚ` where Go would
  yield `Inf`/`NaN`; every theorem that depends on a division keeps the
  divisor away from zero unless the point under study is precisely that Go
  produces a non-numeric result there (noted at the theorem).
* The Go map `map[string]float64` is an association list with unique keys;
  indexing `m[k]` returns the zero value when the key is absent
  (`ratesIndex`), and `v, ok := m[k]` is `List.lookup`.
* `encoding/json`'s `interface{}` decoding result is the inductive `Json`.
  A Go type assertion `x.(T)` that fails panics; panics and `log.Fatalln`
  abort the call, so fallible decoding is embedded as `Except`.
* Wall-clock time is an explicit `now : Int` parameter (Unix seconds), and
  the network fetch of `getData` is an explicit `Option Json` argument
  (`none` = transport failure).  `Data.update` also reports whether it
  performed a fetch, so fetch-counting properties can be stated.
-/

namespace CurrConv

/-- The result of Go's `json.Unmarshal` into `interface{}`: null, bool,
number (float64, modelled as `ℚ`), string, array, or object
(`map[string]interface{}`, modelled as an association list). -/
inductive Json where
  | null
  | bool (b : Bool)
  | num (q : ℚ)
  | str (s : String)
  | arr (xs : List Json)
  | obj (fields : List (String × Json))

/-- The `Data` struct of currconv.go: one fetched rate snapshot.
`Rates` maps currency identifiers to their value in the base currency. -/
structure Data where
  Success : Bool
  Timestamp : Int
  Base : String
  Date : String
  Rates : List (String × ℚ)
deriving Repr, DecidableEq

/-- Go map indexing `rates[c]`: the zero value `0` when `c` is absent. -/
def ratesIndex (rs : List (String × ℚ)) (c : String) : ℚ :=
  (rs.lookup c).getD 0

/-- `Data.convert` of currconv.go, line for line:
`euroAmount := amount / data.Rates[curr1]; return euroAmount * data.Rates[curr2]`.
No validation of any kind is performed. -/
def Data.convert (data : Data) (curr1 curr2 : String) (amount : ℚ) : ℚ :=
  let euroAmount := amount / ratesIndex data.Rates curr1
  euroAmount * ratesIndex data.Rates curr2

/-- Go's `int64(f)` on a float: truncation toward zero. -/
def truncToInt (q : ℚ) : Int :=
  if q < 0 then -(Rat.floor (-q)) else Rat.floor q

/-- How a run of `decodeJSON` aborts.  In Go these are a `log.Fatalln` or a
runtime type-assertion panic; the constructor records which assertion
failed (`badField f`: the assertion on `m[f]`; `badRate c`: the assertion
on the rate entry for currency `c`; `notObject`: the top-level assertion
`i.(map[string]interface\x7b\x7d)`). -/
inductive DecodeErr where
  | notObject
  | badField (field : String)
  | badRate (code : String)
deriving Repr, DecidableEq

/-- Go map read `m[f]` on a decoded JSON object: the nil interface
(`Json.null`) when the key is absent. -/
def getField (m : List (String × Json)) (f : String) : Json :=
  (m.lookup f).getD .null

/-- The type assertion `m[f].(bool)`: panics unless the value is a bool. -/
def asBool (f : String) : Json → Except DecodeErr Bool
  | Json.bool b => .ok b
  | _ => .error (.badField f)

/-- The type assertion `m[f].(float64)`: panics unless the value is a number. -/
def asNum (f : String) : Json → Except DecodeErr ℚ
  | Json.num q => .ok q
  | _ => .error (.badField f)

/-- The type assertion `m[f].(string)`: panics unless the value is a string. -/
def asStr (f : String) : Json → Except DecodeErr String
  | Json.str s => .ok s
  | _ => .error (.badField f)

/-- The type assertion `m[f].(map[string]interface\x7b\x7d)`. -/
def asObjFields (f : String) : Json → Except DecodeErr (List (String × Json))
  | Json.obj fs => .ok fs
  | _ => .error (.badField f)

/-- The loop over `ratesInterface` in `decodeJSON`: each value is asserted
to be a float64; the first non-numeric entry panics. -/
def decodeRates : List (String × Json) → Except DecodeErr (List (String × ℚ))
  | [] => .ok []
  | (k, Json.num q) :: rest =>
    match decodeRates rest with
    | .ok tl => .ok ((k, q) :: tl)
    | .error e => .error e
  | (k, _) :: _ => .error (.badRate k)

/-- `decodeJSON` of currconv.go on an already-unmarshalled value: asserts
the top level is an object, then asserts `success`, `timestamp`, `base`,
`date` and `rates` in this order, then converts every rate entry.  Any
failing assertion aborts (in Go: a panic); the `success` value is stored
but never checked. -/
def decodeJSON : Json → Except DecodeErr Data
  | Json.obj m => do
    let success ← asBool "success" (getField m "success")
    let ts ← asNum "timestamp" (getField m "timestamp")
    let base ← asStr "base" (getField m "base")
    let date ← asStr "date" (getField m "date")
    let ratesInterface ← asObjFields "rates" (getField m "rates")
    let rates ← decodeRates ratesInterface
    .ok ⟨success, truncToInt ts, base, date, rates⟩
  | _ => .error .notObject

/-- How a run of `Data.update` aborts when the refresh path is taken:
`fetchPanic` models `getData` hitting a transport error (`http.Get`
returns a nil response which is then dereferenced), `decodeAbort` models
`decodeJSON` aborting on the fetched body. -/
inductive UpdateErr where
  | fetchPanic
  | decodeAbort (e : DecodeErr)
deriving Repr, DecidableEq

/-- `Data.update` of currconv.go with time and I/O made explicit: `now` is
the current Unix time in seconds and `fetch` the outcome of `getData`.
Go tests `time.Since(time.Unix(data.Timestamp, 0)).Hours() > 1`, i.e.
(at second granularity) `now - data.Timestamp > 3600`; only then does it
fetch and decode.  The `Bool` in the result records whether a fetch was
performed. -/
def Data.update (data : Data) (now : Int) (fetch : Option Json) :
    Except UpdateErr (Data × Bool) :=
  if 3600 < now - data.Timestamp then
    match fetch with
    | none => .error .fetchPanic
    | some b =>
      match decodeJSON b with
      | .ok d => .ok (d, true)
      | .error e => .error (.decodeAbort e)
  else
    .ok (data, false)

/-- Go's `math.Round`: round half away from zero. -/
def mathRound (q : ℚ) : Int :=
  if q < 0 then -(Rat.floor (-q + 1/2)) else Rat.floor (q + 1/2)

/-- `roundTo2Decimals` of currconv.go: `math.Round(x*100) / 100`. -/
def roundTo2Decimals (x : ℚ) : ℚ :=
  (mathRound (x * 100) : ℚ) / 100

/-- What `convertHandler` does with a request, after template rendering and
time formatting are stripped: `redirect` is `http.Redirect(w, r, "/", 302)`,
`page` carries the fields of the `Page` struct that depend on the
conversion. -/
inductive HandlerResult where
  | redirect
  | page (fromCur toCur : String) (value result : ℚ)
deriving Repr, DecidableEq

/-- `convertHandler` of currconv.go on already-updated data: `value` is the
outcome of `strconv.ParseFloat` (`none` = parse error).  It redirects when
the value failed to parse or either currency is absent from `Rates`;
otherwise it renders the rounded conversion. -/
def convertHandler (data : Data) (fromCur toCur : String) (value : Option ℚ) :
    HandlerResult :=
  match value with
  | none => .redirect
  | some v =>
    if (data.Rates.lookup fromCur).isSome && (data.Rates.lookup toCur).isSome then
      .page fromCur toCur v (roundTo2Decimals (data.convert fromCur toCur v))
    else
      .redirect

/-- Does `getField m f` have the type that `decodeJSON` asserts for the
required field `f`?  (`false` also when `f` is not a required field.) -/
def fieldTypeOk (m : List (String × Json)) (f : String) : Bool :=
  if f = "success" then (asBool f (getField m f)).toBool
  else if f = "timestamp" then (asNum f (getField m f)).toBool
  else if f = "base" then (asStr f (getField m f)).toBool
  else if f = "date" then (asStr f (getField m f)).toBool
  else if f = "rates" then (asObjFields f (getField m f)).toBool
  else false

/-- All five required fields of the rate document are present with the
asserted types. -/
def requiredFieldsOk (m : List (String × Json)) : Bool :=
  fieldTypeOk m "success" && fieldTypeOk m "timestamp" && fieldTypeOk m "base"
    && fieldTypeOk m "date" && fieldTypeOk m "rates"

/-- Every rate entry of the document is numeric. -/
def ratesAllNum : List (String × Json) → Bool
  | [] => true
  | (_, Json.num _) :: rest => ratesAllNum rest
  | _ => false

/-- The snapshot used for the spec's concrete scenario:
`rates = USD ↦ 1.2, GBP ↦ 0.9`, `base = EUR`. -/
def exData : Data :=
  ⟨true, 0, "EUR", "2020-01-01", [("USD", 6/5), ("GBP", 9/10)]⟩

end CurrConv

/-! ## Helper lemmas -/

namespace CurrConv

/-- Batteries' `Rat.floor` agrees with Mathlib's floor on `ℚ`. -/
theorem ratFloor_eq (q : ℚ) : Rat.floor q = ⌊q⌋ := rfl

theorem floor_intCast_add_half (n : ℤ) : ⌊(n : ℚ) + 1/2⌋ = n := by
  rw [Int.floor_eq_iff]
  constructor <;> norm_num

/-- `mathRound` is the identity on integers. -/
theorem mathRound_intCast (n : ℤ) : mathRound (n : ℚ) = n := by
  simp only [mathRound, ratFloor_eq]
  by_cases hn : (n : ℚ) < 0
  · rw [if_pos hn]
    have h2 : -(n:ℚ) + 1/2 = ((-n : ℤ) : ℚ) + 1/2 := by push_cast; ring
    rw [h2, floor_intCast_add_half]
    ring
  · rw [if_neg hn, floor_intCast_add_half]

theorem exceptBind_ok {ε α β : Type} (a : α) (f : α → Except ε β) :
    (Except.ok a : Except ε α) >>= f = f a := rfl

theorem asBool_of_toBool_false {f : String} {j : Json}
    (h : (asBool f j).toBool = false) : asBool f j = .error (.badField f) := by
  cases j <;> simp_all [asBool, Except.toBool]

theorem asNum_of_toBool_false {f : String} {j : Json}
    (h : (asNum f j).toBool = false) : asNum f j = .error (.badField f) := by
  cases j <;> simp_all [asNum, Except.toBool]

theorem asStr_of_toBool_false {f : String} {j : Json}
    (h : (asStr f j).toBool = false) : asStr f j = .error (.badField f) := by
  cases j <;> simp_all [asStr, Except.toBool]

theorem asObjFields_of_toBool_false {f : String} {j : Json}
    (h : (asObjFields f j).toBool = false) : asObjFields f j = .error (.badField f) := by
  cases j <;> simp_all [asObjFields, Except.toBool]

theorem asBool_of_toBool_true {f : String} {j : Json}
    (h : (asBool f j).toBool = true) : ∃ b, asBool f j = .ok b := by
  cases j <;> first | exact ⟨_, rfl⟩ | simp_all [asBool, Except.toBool]

theorem asNum_of_toBool_true {f : String} {j : Json}
    (h : (asNum f j).toBool = true) : ∃ q, asNum f j = .ok q := by
  cases j <;> first | exact ⟨_, rfl⟩ | simp_all [asNum, Except.toBool]

theorem asStr_of_toBool_true {f : String} {j : Json}
    (h : (asStr f j).toBool = true) : ∃ s, asStr f j = .ok s := by
  cases j <;> first | exact ⟨_, rfl⟩ | simp_all [asStr, Except.toBool]

theorem asObjFields_of_toBool_true {f : String} {j : Json}
    (h : (asObjFields f j).toBool = true) : ∃ fs, asObjFields f j = .ok fs := by
  cases j <;> first | exact ⟨_, rfl⟩ | simp_all [asObjFields, Except.toBool]

theorem fieldTypeOk_success (m : List (String × Json)) :
    fieldTypeOk m "success" = (asBool "success" (getField m "success")).toBool := rfl

theorem fieldTypeOk_timestamp (m : List (String × Json)) :
    fieldTypeOk m "timestamp" = (asNum "timestamp" (getField m "timestamp")).toBool := rfl

theorem fieldTypeOk_base (m : List (String × Json)) :
    fieldTypeOk m "base" = (asStr "base" (getField m "base")).toBool := rfl

theorem fieldTypeOk_date (m : List (String × Json)) :
    fieldTypeOk m "date" = (asStr "date" (getField m "date")).toBool := rfl

theorem fieldTypeOk_rates (m : List (String × Json)) :
    fieldTypeOk m "rates" = (asObjFields "rates" (getField m "rates")).toBool := rfl

/-- `decodeRates` succeeds exactly when every rate entry is numeric. -/
theorem decodeRates_ok_of_allNum (ri : List (String × Json)) (h : ratesAllNum ri = true) :
    ∃ rs, decodeRates ri = .ok rs := by
  induction ri with
  | nil => exact ⟨[], rfl⟩
  | cons hd tl ih =>
    obtain ⟨k, v⟩ := hd
    cases v <;> simp [ratesAllNum] at h
    case num q =>
      obtain ⟨rs, hrs⟩ := ih h
      exact ⟨(k, q) :: rs, by simp only [decodeRates, hrs]⟩

/-- A snapshot with a rate table entry of `0`, as `decodeJSON` would accept
(any float64 is a legal rate value). -/
def zeroRateData : Data :=
  ⟨true, 0, "EUR", "2020-01-01", [("XXX", 0)]⟩

/-- The fields of a rate document that has everything except the `rates`
key. -/
def ratesMissingFields : List (String × Json) :=
  [("success", .bool true), ("timestamp", .num 100), ("base", .str "EUR"),
   ("date", .str "2020-01-01")]

/-- A rate document missing the `rates` key. -/
def docMissingRates : Json := Json.obj ratesMissingFields

/-- The fields of a rate document whose `success` flag is `false` but which
is otherwise completely well-formed. -/
def docSuccessFalseFields : List (String × Json) :=
  [("success", .bool false), ("timestamp", .num 100), ("base", .str "EUR"),
   ("date", .str "2020-01-01"), ("rates", .obj [("USD", .num (6/5))])]

end CurrConv

/-! ## Claim theorems -/

namespace CurrConv

/-- C1: for every snapshot whose rates table contains both currency codes,
`Data.convert` computes `(amount / rates[fromCode]) * rates[toCode]`; the
witness instantiates the spec's concrete scenario
(`rates = USD 1.2, GBP 0.9`, `convert(s, USD, GBP, 120) = 90`, rounded
`90.00`). -/
theorem convert_follows_base_formula (d : Data) (c1 c2 : String) (r1 r2 a : ℚ)
    (h1 : d.Rates.lookup c1 = some r1) (h2 : d.Rates.lookup c2 = some r2) :
    d.convert c1 c2 a = a / r1 * r2 := by
  simp [Data.convert, ratesIndex, h1, h2]

/-- C1 witness: the concrete scenario of the spec, via
`convert_follows_base_formula`. -/
theorem convert_follows_base_formula_witness :
    exData.Rates.lookup "USD" = some (6/5) ∧ exData.Rates.lookup "GBP" = some (9/10) ∧
    exData.convert "USD" "GBP" 120 = 90 ∧
    roundTo2Decimals (exData.convert "USD" "GBP" 120) = 90 := by
  have h := convert_follows_base_formula exData "USD" "GBP" (6/5) (9/10) 120 rfl rfl
  have hc : exData.convert "USD" "GBP" 120 = 90 := by rw [h]; norm_num
  refine ⟨rfl, rfl, hc, ?_⟩
  rw [hc]
  unfold roundTo2Decimals
  rw [show (90 : ℚ) * 100 = ((9000 : ℤ) : ℚ) by norm_num, mathRound_intCast]
  norm_num

/-- C2: while the cached snapshot is at most one hour old
(`now - Timestamp ≤ 3600` seconds), `Data.update` returns it unchanged
(same timestamp, same rates) and performs no fetch (the fetch flag is
`false`); a second call still within the threshold performs no fetch
either. -/
theorem update_fresh_returns_cached (d : Data) (n1 n2 : Int) (f1 f2 : Option Json)
    (h1 : n1 - d.Timestamp ≤ 3600) (h2 : n2 - d.Timestamp ≤ 3600) :
    d.update n1 f1 = .ok (d, false) ∧ d.update n2 f2 = .ok (d, false) := by
  refine ⟨?_, ?_⟩ <;> · unfold Data.update; rw [if_neg (by omega)]

/-- C2 witness: a snapshot fetched at time 0 is served from cache at 1000 s
and again at exactly 3600 s, with no fetch performed. -/
theorem update_fresh_returns_cached_witness :
    exData.update 1000 none = .ok (exData, false) ∧
    exData.update 3600 none = .ok (exData, false) :=
  update_fresh_returns_cached exData 1000 3600 none none (by decide) (by decide)

/-- C3 counterexample: with `"ZZZ"` absent from the rates table,
`Data.convert` does not fail with any error: it returns the numeric value
`0` (the absent code reads as rate `0`; in Go, `euroAmount * 0.0 = 0.0`
since the USD rate is nonzero).  There is no `ConversionError` anywhere in
the code. -/
theorem convert_unknown_currency_counterexample :
    exData.Rates.lookup "ZZZ" = none ∧ exData.convert "USD" "ZZZ" 10 = 0 := by
  refine ⟨rfl, ?_⟩
  have h : exData.Rates.lookup "ZZZ" = none := rfl
  simp only [Data.convert, ratesIndex, h, Option.getD_none, mul_zero]

/-- C3 amended: `Data.convert` itself never fails (an absent code reads as
rate `0`); the presence check lives in `convertHandler`, which redirects to
`/` (HTTP 302) without converting when either code is absent from
`Rates`. -/
theorem handler_unknown_currency_redirects (d : Data) (fromCur toCur : String) (v : ℚ)
    (h : d.Rates.lookup fromCur = none ∨ d.Rates.lookup toCur = none) :
    convertHandler d fromCur toCur (some v) = .redirect := by
  unfold convertHandler
  rcases h with h | h <;> simp [h]

/-- C3 amended witness: the spec's `convert(s, ZZZ, USD, 10)` request is
answered with a redirect. -/
theorem handler_unknown_currency_redirects_witness :
    exData.Rates.lookup "ZZZ" = none ∧
    convertHandler exData "ZZZ" "USD" (some 10) = .redirect :=
  ⟨rfl, handler_unknown_currency_redirects exData "ZZZ" "USD" 10 (Or.inl rfl)⟩

/-- C4 counterexample: a good snapshot fetched at T0 = 0, a failed refresh
at T0 + 2 h (7200 s): `Data.update` does not return the T0 snapshot — a
malformed fetched document aborts decoding (in Go, a type-assertion panic)
and a transport error dereferences a nil response.  The last good snapshot
is not served. -/
theorem update_degraded_serve_counterexample :
    exData.update 7200 (some docMissingRates) = .error (.decodeAbort (.badField "rates")) ∧
    exData.update 7200 none = .error .fetchPanic :=
  ⟨rfl, rfl⟩

/-- C4 amended: when the snapshot is stale and the refresh attempt fails
(transport error or decode abort), `Data.update` propagates the failure —
it never falls back to the cached snapshot, no matter how many successful
fetches happened before. -/
theorem update_refresh_failure_aborts (d : Data) (now : Int)
    (h : 3600 < now - d.Timestamp) :
    d.update now none = .error .fetchPanic ∧
    ∀ j e, decodeJSON j = .error e → d.update now (some j) = .error (.decodeAbort e) := by
  constructor
  · unfold Data.update; rw [if_pos h]
  · intro j e hj
    unfold Data.update
    rw [if_pos h]
    simp only [hj]

/-- C4 amended witness: the degraded-serve scenario input (good snapshot at
0, refresh attempt at 7200 s), instantiated. -/
theorem update_refresh_failure_aborts_witness :
    (3600 : Int) < 7200 - exData.Timestamp ∧
    exData.update 7200 none = .error .fetchPanic ∧
    exData.update 7200 (some docMissingRates) = .error (.decodeAbort (.badField "rates")) := by
  have h : (3600 : Int) < 7200 - exData.Timestamp := by decide
  have k := update_refresh_failure_aborts exData 7200 h
  exact ⟨h, k.1, k.2 docMissingRates (DecodeErr.badField "rates") rfl⟩

/-- C5: a document in which any of the five required fields (`success`,
`timestamp`, `base`, `date`, `rates`) is missing or wrong-typed makes
`decodeJSON` abort with an error naming an offending required field, and
never yields a snapshot — in particular a missing `rates` key never
produces a snapshot with a defaulted rate table. -/
theorem decode_missing_required_field_errors (m : List (String × Json))
    (h : requiredFieldsOk m = false) :
    (∃ f, fieldTypeOk m f = false ∧
      (f = "success" ∨ f = "timestamp" ∨ f = "base" ∨ f = "date" ∨ f = "rates") ∧
      decodeJSON (Json.obj m) = .error (.badField f)) ∧
    ∀ d, decodeJSON (Json.obj m) ≠ .ok d := by
  have key : ∃ f, fieldTypeOk m f = false ∧
      (f = "success" ∨ f = "timestamp" ∨ f = "base" ∨ f = "date" ∨ f = "rates") ∧
      decodeJSON (Json.obj m) = .error (.badField f) := by
    cases hb1 : (asBool "success" (getField m "success")).toBool with
    | false =>
      exact ⟨"success", (fieldTypeOk_success m).trans hb1, Or.inl rfl,
        by simp only [decodeJSON, asBool_of_toBool_false hb1]; rfl⟩
    | true =>
    obtain ⟨v1, hv1⟩ := asBool_of_toBool_true hb1
    cases hb2 : (asNum "timestamp" (getField m "timestamp")).toBool with
    | false =>
      exact ⟨"timestamp", (fieldTypeOk_timestamp m).trans hb2, Or.inr (Or.inl rfl),
        by simp only [decodeJSON, hv1, asNum_of_toBool_false hb2]; rfl⟩
    | true =>
    obtain ⟨v2, hv2⟩ := asNum_of_toBool_true hb2
    cases hb3 : (asStr "base" (getField m "base")).toBool with
    | false =>
      exact ⟨"base", (fieldTypeOk_base m).trans hb3, Or.inr (Or.inr (Or.inl rfl)),
        by simp only [decodeJSON, hv1, hv2, asStr_of_toBool_false hb3]; rfl⟩
    | true =>
    obtain ⟨v3, hv3⟩ := asStr_of_toBool_true hb3
    cases hb4 : (asStr "date" (getField m "date")).toBool with
    | false =>
      exact ⟨"date", (fieldTypeOk_date m).trans hb4, Or.inr (Or.inr (Or.inr (Or.inl rfl))),
        by simp only [decodeJSON, hv1, hv2, hv3, asStr_of_toBool_false hb4]; rfl⟩
    | true =>
    obtain ⟨v4, hv4⟩ := asStr_of_toBool_true hb4
    cases hb5 : (asObjFields "rates" (getField m "rates")).toBool with
    | false =>
      exact ⟨"rates", (fieldTypeOk_rates m).trans hb5, Or.inr (Or.inr (Or.inr (Or.inr rfl))),
        by simp only [decodeJSON, hv1, hv2, hv3, hv4, asObjFields_of_toBool_false hb5]; rfl⟩
    | true =>
      exact absurd h (by
        simp only [requiredFieldsOk, fieldTypeOk_success, fieldTypeOk_timestamp,
          fieldTypeOk_base, fieldTypeOk_date, fieldTypeOk_rates, hb1, hb2, hb3, hb4, hb5]
        simp)
  refine ⟨key, ?_⟩
  obtain ⟨f, -, -, hf⟩ := key
  intro d hd
  rw [hf] at hd
  cases hd

/-- C5 witness: the spec's scenario — a document missing the `rates` key —
aborts decoding and produces no snapshot. -/
theorem decode_missing_required_field_errors_witness :
    requiredFieldsOk ratesMissingFields = false ∧
    ((∃ f, fieldTypeOk ratesMissingFields f = false ∧
      (f = "success" ∨ f = "timestamp" ∨ f = "base" ∨ f = "date" ∨ f = "rates") ∧
      decodeJSON (Json.obj ratesMissingFields) = .error (.badField f)) ∧
    ∀ d, decodeJSON (Json.obj ratesMissingFields) ≠ .ok d) :=
  ⟨rfl, decode_missing_required_field_errors ratesMissingFields rfl⟩

end CurrConv

namespace CurrConv

/-- C6 counterexample: a snapshot can carry the rate `0` for a currency
(any float64 is accepted by `decodeJSON`), and then self-conversion is not
the identity: `convert(s, XXX, XXX, 5) = 0 ≠ 5` in the exact model (in Go:
`5 / 0.0 * 0.0 = NaN ≠ 5`, likewise not the amount). -/
theorem convert_self_zero_rate_counterexample :
    zeroRateData.Rates.lookup "XXX" = some 0 ∧ (0 : ℚ) ≤ 5 ∧
    zeroRateData.convert "XXX" "XXX" 5 ≠ 5 := by
  refine ⟨rfl, by norm_num, ?_⟩
  have h : zeroRateData.Rates.lookup "XXX" = some 0 := rfl
  simp only [Data.convert, ratesIndex, h, Option.getD_some, mul_zero]
  norm_num

/-- C6 amended: for every currency `X` present in the rates table with a
nonzero rate, converting any non-negative amount from `X` to `X` is exactly
the identity (in the exact-rational model of float64 arithmetic). -/
theorem convert_self_identity (d : Data) (X : String) (r a : ℚ)
    (h : d.Rates.lookup X = some r) (hr : r ≠ 0) (_ha : 0 ≤ a) :
    d.convert X X a = a := by
  simp [Data.convert, ratesIndex, h, div_mul_cancel₀ a hr]

/-- C6 amended witness: converting 7 USD to USD gives 7. -/
theorem convert_self_identity_witness :
    exData.convert "USD" "USD" 7 = 7 :=
  convert_self_identity exData "USD" (6/5) 7 rfl (by norm_num) (by norm_num)

/-- C7 counterexample: a document whose `success` flag is `false` but which
is otherwise well-formed decodes to a snapshot (no error), and that
snapshot converts like any other — the flag is stored and ignored. -/
theorem decode_success_false_counterexample :
    decodeJSON (Json.obj docSuccessFalseFields) =
      .ok ⟨false, 100, "EUR", "2020-01-01", [("USD", 6/5)]⟩ ∧
    (Data.mk false 100 "EUR" "2020-01-01" [("USD", 6/5)]).convert "USD" "USD" 10 = 10 := by
  constructor
  · rfl
  · have h : (Data.mk false 100 "EUR" "2020-01-01" [("USD", (6/5 : ℚ))]).Rates.lookup "USD"
        = some (6/5) := rfl
    simp only [Data.convert, ratesIndex, h, Option.getD_some]
    norm_num

/-- C7 amended: `decodeJSON` does not check the `success` flag: any
document carrying `success = false` with otherwise well-typed required
fields and numeric rates decodes to a snapshot whose `Success` field is
`false`, rather than to an error. -/
theorem decode_ignores_success_flag (m ri : List (String × Json)) (ts : ℚ) (b dt : String)
    (hs : getField m "success" = Json.bool false)
    (ht : getField m "timestamp" = Json.num ts)
    (hb : getField m "base" = Json.str b)
    (hd : getField m "date" = Json.str dt)
    (hr : getField m "rates" = Json.obj ri)
    (hn : ratesAllNum ri = true) :
    ∃ rs, decodeRates ri = .ok rs ∧
      decodeJSON (Json.obj m) = .ok ⟨false, truncToInt ts, b, dt, rs⟩ := by
  obtain ⟨rs, hrs⟩ := decodeRates_ok_of_allNum ri hn
  refine ⟨rs, hrs, ?_⟩
  simp only [decodeJSON, hs, ht, hb, hd, hr, asBool, asNum, asStr, asObjFields,
    exceptBind_ok, hrs]

/-- C7 amended witness: the concrete `success = false` document decodes to
a snapshot. -/
theorem decode_ignores_success_flag_witness :
    ∃ rs, decodeRates [("USD", Json.num (6/5))] = .ok rs ∧
      decodeJSON (Json.obj docSuccessFalseFields) =
        .ok ⟨false, truncToInt 100, "EUR", "2020-01-01", rs⟩ :=
  decode_ignores_success_flag docSuccessFalseFields [("USD", Json.num (6/5))] 100 "EUR"
    "2020-01-01" rfl rfl rfl rfl rfl rfl

/-- C8 counterexample: a negative amount is converted like any other: with
the spec's snapshot, `convert(s, USD, GBP, -120) = -90`, and
`convertHandler` renders the page with that value — there is no
`ConversionError(InvalidAmount)` anywhere in the code. -/
theorem convert_negative_amount_counterexample :
    exData.convert "USD" "GBP" (-120) = -90 ∧
    convertHandler exData "USD" "GBP" (some (-120)) = .page "USD" "GBP" (-120) (-90) := by
  have hc : exData.convert "USD" "GBP" (-120) = -90 := by
    simp only [Data.convert, ratesIndex]
    rw [show exData.Rates.lookup "USD" = some (6/5) from rfl,
      show exData.Rates.lookup "GBP" = some (9/10) from rfl]
    norm_num
  refine ⟨hc, ?_⟩
  unfold convertHandler
  rw [show exData.Rates.lookup "USD" = some (6/5) from rfl,
    show exData.Rates.lookup "GBP" = some (9/10) from rfl]
  simp only [Option.isSome_some, Bool.and_self, if_true, hc]
  unfold roundTo2Decimals
  rw [show (-90 : ℚ) * 100 = ((-9000 : ℤ) : ℚ) by norm_num, mathRound_intCast]
  norm_num

/-- C8 amended: neither `Data.convert` nor `convertHandler` validates the
amount: a negative amount whose currencies are both present is converted by
the same formula and rendered as a page with the rounded result. -/
theorem convert_no_amount_validation (d : Data) (c1 c2 : String) (r1 r2 v : ℚ)
    (h1 : d.Rates.lookup c1 = some r1) (h2 : d.Rates.lookup c2 = some r2)
    (_hv : v < 0) :
    d.convert c1 c2 v = v / r1 * r2 ∧
    convertHandler d c1 c2 (some v) = .page c1 c2 v (roundTo2Decimals (v / r1 * r2)) := by
  have hc : d.convert c1 c2 v = v / r1 * r2 := by simp [Data.convert, ratesIndex, h1, h2]
  refine ⟨hc, ?_⟩
  unfold convertHandler
  rw [h1, h2]
  simp [hc]

/-- C8 amended witness: converting -10 USD to GBP goes through. -/
theorem convert_no_amount_validation_witness :
    exData.convert "USD" "GBP" (-10) = -10 / (6/5) * (9/10) ∧
    convertHandler exData "USD" "GBP" (some (-10)) =
      .page "USD" "GBP" (-10) (roundTo2Decimals (-10 / (6/5) * (9/10))) :=
  convert_no_amount_validation exData "USD" "GBP" (6/5) (9/10) (-10) rfl rfl (by norm_num)

/-- C10: conversion is homogeneous in the amount: scaling the amount by `k`
scales the result by `k` (exact-rational model of the float64
arithmetic). -/
theorem convert_homogeneous (d : Data) (c1 c2 : String) (r1 r2 k x : ℚ)
    (h1 : d.Rates.lookup c1 = some r1) (h2 : d.Rates.lookup c2 = some r2)
    (_hr : r1 ≠ 0) :
    d.convert c1 c2 (k * x) = k * d.convert c1 c2 x := by
  simp only [Data.convert, ratesIndex, h1, h2, Option.getD_some]
  rw [mul_div_assoc, mul_assoc]

/-- C10 witness: doubling 50 USD doubles the GBP result. -/
theorem convert_homogeneous_witness :
    exData.convert "USD" "GBP" (2 * 50) = 2 * exData.convert "USD" "GBP" 50 :=
  convert_homogeneous exData "USD" "GBP" (6/5) (9/10) 2 50 rfl rfl (by norm_num)

end CurrConv
